import Mathlib

/-!
Shallow embedding of `src/src/components/ButtonDrop.vue`: a single rigid
rectangle (the button) simulated under gravity, friction and boundary
bounces inside the browser viewport.  JavaScript numbers are modelled as
exact rationals; the JS remainder operator and `Math.round` are embedded
explicitly (`jsMod`, `jsRound`).  The reactive refs of the component
become the fields of `PhysState`; `requestAnimationFrame` scheduling is
modelled by the `pendingTick` flag (set when the tick reschedules itself,
cleared by `cancelAnimationFrame` in `startDrag` and when the settlement
test stops the loop).
-/

namespace ButtonDrop

/-- Physics constant `friction = 0.98` from the component. -/
def friction : ℚ := 98 / 100

/-- Physics constant `bounce = 0.7` from the component. -/
def bounce : ℚ := 7 / 10

/-- Physics constant `gravity = 0.5` from the component. -/
def gravity : ℚ := 1 / 2

/-- Constant `buttonWidth = 120` from the component. -/
def buttonWidth : ℚ := 120

/-- Constant `buttonHeight = 56` from the component. -/
def buttonHeight : ℚ := 56

/-- Physics constant `rotationFriction = 0.96` from the component. -/
def rotationFriction : ℚ := 96 / 100

/-- Physics constant `rotationMultiplier = 0.2` from the component. -/
def rotationMultiplier : ℚ := 2 / 10

/-- Truncation toward zero, as JavaScript number-to-integer truncation. -/
def jsTrunc (q : ℚ) : ℤ := if 0 ≤ q then ⌊q⌋ else ⌈q⌉

/-- The JavaScript `%` operator on numbers: remainder with the sign of the
dividend, `x % y = x - y * trunc (x / y)`. -/
def jsMod (x y : ℚ) : ℚ := x - y * (jsTrunc (x / y) : ℚ)

/-- JavaScript `Math.round`: round half toward positive infinity. -/
def jsRound (q : ℚ) : ℤ := ⌊q + 1 / 2⌋

/-- The mutable reactive state of the component: positions, velocities,
rotation, drag bookkeeping and the two phase flags, plus `pendingTick`
modelling whether an animation frame is currently scheduled. -/
structure PhysState where
  posX : ℚ
  posY : ℚ
  startX : ℚ
  startY : ℚ
  velocityX : ℚ
  velocityY : ℚ
  rotation : ℚ
  angularVelocity : ℚ
  isDragging : Bool
  hasDropped : Bool
  lastTime : ℚ
  pendingTick : Bool
deriving DecidableEq

/-- `checkBoundaries` from the component: clamps the position to the
viewport, reflecting velocities with restitution `bounce`, assigning the
collision spin response, and reporting whether any boundary was hit.
The X axis is checked first; the Y-axis branches read the velocity as
already modified by the X-axis branch, exactly as the sequential
mutations in the source do. -/
def checkBoundaries (windowWidth windowHeight : ℚ) (s : PhysState) :
    PhysState × Bool :=
  let p1 : PhysState × Bool :=
    if s.posX < 0 then
      ({ s with posX := 0
                velocityX := -s.velocityX * bounce
                angularVelocity := -s.velocityY * rotationMultiplier }, true)
    else if s.posX > windowWidth - buttonWidth then
      ({ s with posX := windowWidth - buttonWidth
                velocityX := -s.velocityX * bounce
                angularVelocity := s.velocityY * rotationMultiplier }, true)
    else (s, false)
  let s1 := p1.1
  if s1.posY < 0 then
    ({ s1 with posY := 0
               velocityY := -s1.velocityY * bounce
               angularVelocity := s1.velocityX * rotationMultiplier }, true)
  else if s1.posY > windowHeight - buttonHeight then
    ({ s1 with posY := windowHeight - buttonHeight
               velocityY := -s1.velocityY * bounce
               angularVelocity := -s1.velocityX * rotationMultiplier * 2
               velocityX := s1.velocityX * (friction * (9 / 10)) }, true)
  else p1

/-- `animate` from the component, one tick at wall time `now`: early
return while dragging, capped time delta, gravity and friction on the
velocities, position integration, boundary check, rotation integration
with JS modulo normalization, and the settlement test that zeroes the
velocities, optionally snaps the rotation to a right angle, and stops
rescheduling. -/
def animate (windowWidth windowHeight now : ℚ) (s : PhysState) : PhysState :=
  if s.isDragging then s
  else
    let deltaTime := min (now - s.lastTime) 50
    let s1 := { s with lastTime := now }
    let vy1 := s1.velocityY + gravity
    let vx2 := s1.velocityX * friction
    let vy2 := vy1 * friction
    let s2 := { s1 with velocityX := vx2
                        velocityY := vy2
                        posX := s1.posX + vx2 * deltaTime / 1000
                        posY := s1.posY + vy2 * deltaTime / 1000 }
    let cb := checkBoundaries windowWidth windowHeight s2
    let s3 := cb.1
    let av1 := s3.angularVelocity * rotationFriction
    let s4 := { s3 with angularVelocity := av1
                        rotation := jsMod (s3.rotation + av1 * deltaTime / 1000) 360 }
    if |s4.velocityX| < 1 / 100 ∧ |s4.velocityY| < 5 / 100 ∧
        |s4.angularVelocity| < 1 / 100 ∧
        s4.posY ≥ windowHeight - buttonHeight then
      let s5 := { s4 with velocityX := 0
                          velocityY := 0
                          angularVelocity := 0
                          pendingTick := false }
      if cb.2 then s5
      else { s5 with rotation := (jsRound (s5.rotation / 90) : ℚ) * 90 }
    else { s4 with pendingTick := true }

/-- `handleScroll` from the component: on a scroll past 50 pixels while
`hasDropped` is still false, latch `hasDropped` and drop the button to
20 pixels above the bottom of the viewport. -/
def handleScroll (scrollY innerHeight : ℚ) (s : PhysState) : PhysState :=
  if s.hasDropped = false ∧ scrollY > 50 then
    { s with hasDropped := true
             posY := innerHeight - buttonHeight - 20 }
  else s

/-- `startDrag` from the component: cancel any pending animation frame,
enter the dragging phase, discard residual momentum and record the
pointer-to-body grab offset. -/
def startDrag (clientX clientY : ℚ) (s : PhysState) : PhysState :=
  { s with pendingTick := false
           isDragging := true
           velocityX := 0
           velocityY := 0
           angularVelocity := 0
           startX := clientX - s.posX
           startY := clientY - s.posY }

/-- `onDrag` from the component: ignored outside a drag; otherwise the
velocity estimate is refreshed only when the elapsed time is positive,
the spin proxy is derived from the change in horizontal velocity, and
the body follows the pointer minus the grab offset. -/
def onDrag (clientX clientY now : ℚ) (s : PhysState) : PhysState :=
  if s.isDragging = false then s
  else
    let deltaTime := now - s.lastTime
    let s1 :=
      if deltaTime > 0 then
        let newVelocityX := (clientX - s.startX - s.posX) / deltaTime * 1000
        let newVelocityY := (clientY - s.startY - s.posY) / deltaTime * 1000
        { s with angularVelocity := (newVelocityX - s.velocityX) * rotationMultiplier
                 velocityX := newVelocityX
                 velocityY := newVelocityY }
      else s
    { s1 with lastTime := now
              posX := clientX - s.startX
              posY := clientY - s.startY }

/-! ### Spec-side integrator pipeline

The following definitions follow the wording of the specification's
Integrator contract (section 4.4), step by step, to be compared with the
code-side `animate`: capped time delta, then gravity, friction, position
advance, boundary resolution, rotation advance with modulo
normalization, and the settlement test. -/

/-- Spec step 0: the elapsed wall time, capped at 50 ms. -/
def specCapDt (now lastTime : ℚ) : ℚ := min (now - lastTime) 50

/-- Spec step 1: `vy += gravity`, unscaled per-tick accumulation. -/
def specGravity (s : PhysState) : PhysState :=
  { s with velocityY := s.velocityY + gravity }

/-- Spec step 2: `vx *= friction; vy *= friction`. -/
def specFriction (s : PhysState) : PhysState :=
  { s with velocityX := s.velocityX * friction
           velocityY := s.velocityY * friction }

/-- Spec step 3: `x += vx*dt/1000; y += vy*dt/1000`. -/
def specAdvance (dt : ℚ) (s : PhysState) : PhysState :=
  { s with posX := s.posX + s.velocityX * dt / 1000
           posY := s.posY + s.velocityY * dt / 1000 }

/-- Spec step 5: damp the angular velocity by `rotationFriction`,
advance the rotation by `angularVelocity*dt/1000` and normalize it
modulo 360. -/
def specRotation (dt : ℚ) (s : PhysState) : PhysState :=
  { s with angularVelocity := s.angularVelocity * rotationFriction
           rotation := jsMod (s.rotation +
             s.angularVelocity * rotationFriction * dt / 1000) 360 }

/-- Spec step 6: the settlement test; on settlement zero all velocities,
snap the rotation to the nearest right angle when no boundary was hit
this tick, and stop scheduling; otherwise schedule the next tick. -/
def specSettle (windowHeight : ℚ) (hit : Bool) (s : PhysState) : PhysState :=
  if |s.velocityX| < 1 / 100 ∧ |s.velocityY| < 5 / 100 ∧
      |s.angularVelocity| < 1 / 100 ∧
      s.posY ≥ windowHeight - buttonHeight then
    let s' := { s with velocityX := 0
                       velocityY := 0
                       angularVelocity := 0
                       pendingTick := false }
    if hit then s'
    else { s' with rotation := (jsRound (s'.rotation / 90) : ℚ) * 90 }
  else { s with pendingTick := true }

/-- The spec's Integrator tick: the guard against running while
dragging, then steps 1–6 composed in the order the spec gives. -/
def specIntegratorTick (windowWidth windowHeight now : ℚ)
    (s : PhysState) : PhysState :=
  if s.isDragging then s
  else
    let dt := specCapDt now s.lastTime
    let s1 := specAdvance dt (specFriction (specGravity { s with lastTime := now }))
    let cb := checkBoundaries windowWidth windowHeight s1
    specSettle windowHeight cb.2 (specRotation dt cb.1)

/-! ### Helper lemmas -/

/-- The JS remainder by 360 always lands strictly inside `(-360, 360)`:
nonnegative dividends give `[0, 360)`, negative ones `(-360, 0]`. -/
theorem abs_jsMod_360_lt (x : ℚ) : |jsMod x 360| < 360 := by
  unfold jsMod jsTrunc
  split_ifs with h
  · have h1 : ((⌊x / 360⌋ : ℤ) : ℚ) ≤ x / 360 := Int.floor_le _
    have h2 : x / 360 < (⌊x / 360⌋ : ℤ) + 1 := Int.lt_floor_add_one _
    have hx : 360 * (x / 360) = x := by ring
    rw [abs_lt]
    constructor <;> nlinarith
  · have h1 : x / 360 ≤ ((⌈x / 360⌉ : ℤ) : ℚ) := Int.le_ceil _
    have h2 : ((⌈x / 360⌉ : ℤ) : ℚ) < x / 360 + 1 := Int.ceil_lt_add_one _
    have hx : 360 * (x / 360) = x := by ring
    rw [abs_lt]
    constructor <;> nlinarith

/-- Snapping a rotation of magnitude below 360 to the nearest right angle
with JS rounding yields a multiple of 90 of magnitude at most 360. -/
theorem abs_jsRound_snap_le (r : ℚ) (h : |r| < 360) :
    |(jsRound (r / 90) : ℚ) * 90| ≤ 360 := by
  unfold jsRound
  rw [abs_lt] at h
  have h1 : (-4 : ℤ) ≤ ⌊r / 90 + 1 / 2⌋ := by
    apply Int.le_floor.mpr
    push_cast
    linarith
  have h2 : ⌊r / 90 + 1 / 2⌋ ≤ 4 := by
    have hlt : r / 90 + 1 / 2 < (4 : ℤ) + 1 := by push_cast; linarith
    exact Int.floor_le_iff.mpr (by push_cast at hlt ⊢; linarith)
  have h1q : ((-4 : ℤ) : ℚ) ≤ ((⌊r / 90 + 1 / 2⌋ : ℤ) : ℚ) := by exact_mod_cast h1
  have h2q : ((⌊r / 90 + 1 / 2⌋ : ℤ) : ℚ) ≤ ((4 : ℤ) : ℚ) := by exact_mod_cast h2
  rw [abs_le]
  constructor <;> push_cast at h1q h2q <;> nlinarith

theorem specRotation_posX (dt : ℚ) (s : PhysState) :
    (specRotation dt s).posX = s.posX := rfl

theorem specRotation_posY (dt : ℚ) (s : PhysState) :
    (specRotation dt s).posY = s.posY := rfl

theorem specSettle_posX (H : ℚ) (hit : Bool) (s : PhysState) :
    (specSettle H hit s).posX = s.posX := by
  unfold specSettle
  split_ifs <;> rfl

theorem specSettle_posY (H : ℚ) (hit : Bool) (s : PhysState) :
    (specSettle H hit s).posY = s.posY := by
  unfold specSettle
  split_ifs <;> rfl

/-- The settlement step never raises the rotation magnitude above 360
when it enters below 360: it either keeps the rotation or snaps it to a
right angle of magnitude at most 360. -/
theorem specSettle_rotation_le (H : ℚ) (hit : Bool) (s : PhysState)
    (h : |s.rotation| < 360) : |(specSettle H hit s).rotation| ≤ 360 := by
  unfold specSettle
  split_ifs
  · exact le_of_lt h
  · exact abs_jsRound_snap_le s.rotation h
  · exact le_of_lt h

/-- Whatever state enters `checkBoundaries`, the position it returns is
clamped into the viewport rectangle, provided the viewport strictly
exceeds the button in both dimensions. -/
theorem checkBoundaries_pos_mem (W H : ℚ) (s : PhysState)
    (hW : buttonWidth < W) (hH : buttonHeight < H) :
    0 ≤ ((checkBoundaries W H s).1).posX ∧
    ((checkBoundaries W H s).1).posX ≤ W - buttonWidth ∧
    0 ≤ ((checkBoundaries W H s).1).posY ∧
    ((checkBoundaries W H s).1).posY ≤ H - buttonHeight := by
  simp only [checkBoundaries]
  split_ifs <;>
    simp_all <;>
    (repeat' constructor) <;>
    linarith

/-- A state fully inside the viewport passes `checkBoundaries`
unchanged, with no hit reported. -/
theorem checkBoundaries_inside (W H : ℚ) (s : PhysState)
    (hx0 : 0 ≤ s.posX) (hx1 : s.posX ≤ W - buttonWidth)
    (hy0 : 0 ≤ s.posY) (hy1 : s.posY ≤ H - buttonHeight) :
    checkBoundaries W H s = (s, false) := by
  have h1 : ¬ s.posX < 0 := by linarith
  have h2 : ¬ s.posX > W - buttonWidth := by linarith
  have h3 : ¬ s.posY < 0 := by linarith
  have h4 : ¬ s.posY > H - buttonHeight := by linarith
  simp only [checkBoundaries, if_neg h1, if_neg h2]
  simp [h3, h4]

/-- Exact result of `checkBoundaries` when only the right wall is
penetrated (the vertical position is within bounds). -/
theorem checkBoundaries_right_wall (W H : ℚ) (s : PhysState)
    (hW : 0 ≤ W - buttonWidth) (hx : s.posX > W - buttonWidth)
    (hy0 : 0 ≤ s.posY) (hy1 : s.posY ≤ H - buttonHeight) :
    checkBoundaries W H s =
      ({ s with posX := W - buttonWidth
                velocityX := -s.velocityX * bounce
                angularVelocity := s.velocityY * rotationMultiplier }, true) := by
  have h1 : ¬ s.posX < 0 := by linarith
  have h3 : ¬ s.posY < 0 := by linarith
  have h4 : ¬ s.posY > H - buttonHeight := by linarith
  simp only [checkBoundaries, if_neg h1, if_pos hx]
  simp [h3, h4]

/-- Exact result of `checkBoundaries` when only the floor is penetrated
(the horizontal position is within bounds). -/
theorem checkBoundaries_floor (W H : ℚ) (s : PhysState)
    (hx0 : 0 ≤ s.posX) (hx1 : s.posX ≤ W - buttonWidth)
    (hH : buttonHeight ≤ H) (hy : s.posY > H - buttonHeight) :
    checkBoundaries W H s =
      ({ s with posY := H - buttonHeight
                velocityY := -s.velocityY * bounce
                angularVelocity := -s.velocityX * rotationMultiplier * 2
                velocityX := s.velocityX * (friction * (9 / 10)) }, true) := by
  have h1 : ¬ s.posX < 0 := by linarith
  have h2 : ¬ s.posX > W - buttonWidth := by linarith
  have h3 : ¬ s.posY < 0 := by linarith
  simp only [checkBoundaries, if_neg h1, if_neg h2]
  simp [h3, hy]

/-! ### Concrete states used by witnesses and counterexamples -/

/-- A free-falling state well inside a 1000×800 viewport. -/
def fallingSample : PhysState :=
  { posX := 300, posY := 200, startX := 0, startY := 0, velocityX := 40,
    velocityY := -30, rotation := 10, angularVelocity := 5,
    isDragging := false, hasDropped := true, lastTime := 0,
    pendingTick := true }

/-- A state with a large negative spin, used to exhibit a negative
normalized rotation. -/
def spinScenario : PhysState :=
  { posX := 100, posY := 100, startX := 0, startY := 0, velocityX := 0,
    velocityY := 0, rotation := 0, angularVelocity := -100,
    isDragging := false, hasDropped := true, lastTime := 0,
    pendingTick := true }

/-- The resting-on-the-floor state of the spec's Scenario C
(`vx = 0.005`, `vy = 0.02`, `angularVelocity = 0.005`,
`posY = 1000 - buttonHeight`), parameterized by the last tick time. -/
def restingScenario (lastTime : ℚ) : PhysState :=
  { posX := 100, posY := 944, startX := 0, startY := 0,
    velocityX := 1 / 200, velocityY := 1 / 50, rotation := 0,
    angularVelocity := 1 / 200, isDragging := false, hasDropped := true,
    lastTime := lastTime, pendingTick := true }

/-! ### Claims -/

/-- C1: for every viewport of width `W > buttonWidth` and height
`H > buttonHeight`, after any simulation tick (the `animate` step
including its boundary check) the body's position satisfies
`0 ≤ posX ≤ W - buttonWidth` and `0 ≤ posY ≤ H - buttonHeight`. -/
theorem animate_tick_position_contained (W H now : ℚ) (s : PhysState)
    (hd : s.isDragging = false)
    (hW : buttonWidth < W) (hH : buttonHeight < H) :
    0 ≤ (animate W H now s).posX ∧
    (animate W H now s).posX ≤ W - buttonWidth ∧
    0 ≤ (animate W H now s).posY ∧
    (animate W H now s).posY ≤ H - buttonHeight := by
  have he : animate W H now s = specIntegratorTick W H now s := rfl
  rw [he]
  unfold specIntegratorTick
  rw [if_neg (by simp [hd])]
  simp only [specSettle_posX, specSettle_posY, specRotation_posX,
    specRotation_posY]
  exact checkBoundaries_pos_mem W H _ hW hH

/-- Witness for C1 at a concrete falling state in a 1000×800 viewport. -/
theorem animate_tick_position_contained_witness :
    fallingSample.isDragging = false ∧
    buttonWidth < 1000 ∧ buttonHeight < 800 ∧
    (0 ≤ (animate 1000 800 16 fallingSample).posX ∧
      (animate 1000 800 16 fallingSample).posX ≤ 1000 - buttonWidth ∧
      0 ≤ (animate 1000 800 16 fallingSample).posY ∧
      (animate 1000 800 16 fallingSample).posY ≤ 800 - buttonHeight) :=
  ⟨rfl, by norm_num [buttonWidth], by norm_num [buttonHeight],
    animate_tick_position_contained 1000 800 16 fallingSample rfl
      (by norm_num [buttonWidth]) (by norm_num [buttonHeight])⟩

/-- C7: `animate` coincides, for every input, with the integrator
pipeline written from the spec's step list: elapsed time capped at
50 ms, then unscaled `vy += gravity`, friction on both velocity
components, position advance by `velocity*Δt/1000`, the boundary check,
then angular-velocity damping and rotation advance modulo 360, then the
settlement test. -/
theorem animate_eq_specIntegratorTick (W H now : ℚ) (s : PhysState) :
    animate W H now s = specIntegratorTick W H now s := rfl

/-- C3 (amended): after every tick the reported rotation has magnitude
at most 360.  The JS `%` operator keeps the sign of the dividend, so the
modulo normalization yields values in `(-360, 360)` rather than
`[0, 360)`, and the settlement snap can reach exactly `±360`. -/
theorem animate_rotation_abs_le (W H now : ℚ) (s : PhysState)
    (hd : s.isDragging = false) :
    |(animate W H now s).rotation| ≤ 360 := by
  have he : animate W H now s = specIntegratorTick W H now s := rfl
  rw [he]
  unfold specIntegratorTick
  rw [if_neg (by simp [hd])]
  exact specSettle_rotation_le _ _ _ (abs_jsMod_360_lt _)

/-- Witness for C3 (amended) at a concrete spinning state. -/
theorem animate_rotation_abs_le_witness :
    spinScenario.isDragging = false ∧
    |(animate 1000 1000 50 spinScenario).rotation| ≤ 360 :=
  ⟨rfl, animate_rotation_abs_le 1000 1000 50 spinScenario rfl⟩

/-- C3 counterexample: a tick from a state with a negative spin reports
a negative rotation after the modulo normalization (here `-4.8`),
contradicting the claimed invariant `0 ≤ rotation < 360`. -/
theorem spin_tick_rotation_neg :
    (animate 1000 1000 50 spinScenario).rotation < 0 := by
  have he : animate 1000 1000 50 spinScenario =
      specIntegratorTick 1000 1000 50 spinScenario := rfl
  rw [he]
  unfold specIntegratorTick
  rw [if_neg (by simp [spinScenario])]
  simp only [spinScenario]
  have hcap : specCapDt 50 0 = 50 := by norm_num [specCapDt]
  rw [hcap]
  have hA : specAdvance 50 (specFriction (specGravity
      { posX := 100, posY := 100, startX := 0, startY := 0, velocityX := 0,
        velocityY := 0, rotation := 0, angularVelocity := -100,
        isDragging := false, hasDropped := true, lastTime := 50,
        pendingTick := true })) =
      { posX := 100, posY := 100 + 49 / 100 * 50 / 1000, startX := 0,
        startY := 0, velocityX := 0, velocityY := 49 / 100, rotation := 0,
        angularVelocity := -100, isDragging := false, hasDropped := true,
        lastTime := 50, pendingTick := true } := by
    simp only [specGravity, specFriction, specAdvance, gravity, friction]
    norm_num
  rw [hA]
  rw [checkBoundaries_inside 1000 1000 _ (by norm_num)
    (by norm_num [buttonWidth]) (by norm_num) (by norm_num [buttonHeight])]
  simp only [specRotation, specSettle, rotationFriction]
  rw [if_neg]
  · have hM : jsMod (0 + -100 * (96 / 100) * 50 / 1000) 360 = -24 / 5 := by
      norm_num [jsMod, jsTrunc]
    simp only [hM]
    norm_num
  · intro hcon
    have hv := hcon.2.1
    rw [abs_of_pos (by norm_num)] at hv
    norm_num at hv

/-- C2 (amended): from the resting state of Scenario C (`vx = 0.005`,
`vy = 0.02`, `angularVelocity = 0.005`, `posY = H - buttonHeight`), the
next tick does NOT settle: gravity and friction raise the vertical
velocity to `0.5096` before the settlement test, the body penetrates the
floor and bounces, leaving `vy = -0.35672`, which fails the `|vy| < 0.05`
settlement threshold, so the velocities are not zeroed and a further
tick is scheduled. -/
theorem animate_resting_no_settle (now lastTime : ℚ) (h : lastTime < now) :
    (animate 1000 1000 now (restingScenario lastTime)).velocityY =
      -4459 / 12500 ∧
    (animate 1000 1000 now (restingScenario lastTime)).pendingTick = true := by
  have he : animate 1000 1000 now (restingScenario lastTime) =
      specIntegratorTick 1000 1000 now (restingScenario lastTime) := rfl
  rw [he]
  unfold specIntegratorTick
  rw [if_neg (by simp [restingScenario])]
  have hd1 : 0 < specCapDt now (restingScenario lastTime).lastTime := by
    simp only [restingScenario, specCapDt]
    exact lt_min (by linarith) (by norm_num)
  have hd2 : specCapDt now (restingScenario lastTime).lastTime ≤ 50 := by
    simp only [specCapDt]
    exact min_le_right _ _
  set d := specCapDt now (restingScenario lastTime).lastTime with hdd
  have hA : specAdvance d (specFriction (specGravity
      { posX := 100, posY := 944, startX := 0, startY := 0, velocityX := 1 / 200,
        velocityY := 1 / 50, rotation := 0, angularVelocity := 1 / 200,
        isDragging := false, hasDropped := true, lastTime := now,
        pendingTick := true })) =
      { posX := 100 + 49 / 10000 * d / 1000, posY := 944 + 637 / 1250 * d / 1000,
        startX := 0, startY := 0, velocityX := 49 / 10000, velocityY := 637 / 1250,
        rotation := 0, angularVelocity := 1 / 200, isDragging := false,
        hasDropped := true, lastTime := now, pendingTick := true } := by
    simp only [specGravity, specFriction, specAdvance, gravity, friction]
    norm_num
  simp only [restingScenario]
  rw [hA]
  rw [checkBoundaries_floor 1000 1000 _
    (by dsimp only; nlinarith) (by dsimp only [buttonWidth]; nlinarith)
    (by norm_num [buttonHeight]) (by dsimp only [buttonHeight]; nlinarith)]
  simp only [specRotation, specSettle]
  norm_num [bounce, rotationFriction, rotationMultiplier, friction, buttonHeight]
  rw [if_neg]
  · exact ⟨rfl, rfl⟩
  · intro hcon
    have hv := hcon.2.1
    rw [abs_of_pos (by norm_num)] at hv
    norm_num at hv

/-- Witness for C2 (amended) at tick time 16 from last time 0. -/
theorem animate_resting_no_settle_witness :
    (0 : ℚ) < 16 ∧
    ((animate 1000 1000 16 (restingScenario 0)).velocityY = -4459 / 12500 ∧
      (animate 1000 1000 16 (restingScenario 0)).pendingTick = true) :=
  ⟨by norm_num, animate_resting_no_settle 16 0 (by norm_num)⟩

/-- C2 counterexample: from the Scenario C resting state the next tick
leaves a nonzero vertical velocity and schedules a further tick, so it
neither zeroes the velocities nor stops the loop. -/
theorem animate_resting_scenario_not_settled :
    (animate 1000 1000 16 (restingScenario 0)).velocityY ≠ 0 ∧
    (animate 1000 1000 16 (restingScenario 0)).pendingTick = true := by
  have he : animate 1000 1000 16 (restingScenario 0) =
      specIntegratorTick 1000 1000 16 (restingScenario 0) := rfl
  rw [he]
  unfold specIntegratorTick
  rw [if_neg (by simp [restingScenario])]
  simp only [restingScenario]
  have hcap : specCapDt 16 0 = 16 := by norm_num [specCapDt]
  rw [hcap]
  have hA : specAdvance 16 (specFriction (specGravity
      { posX := 100, posY := 944, startX := 0, startY := 0, velocityX := 1 / 200,
        velocityY := 1 / 50, rotation := 0, angularVelocity := 1 / 200,
        isDragging := false, hasDropped := true, lastTime := 16,
        pendingTick := true })) =
      { posX := 100 + 49 / 10000 * 16 / 1000, posY := 944 + 637 / 1250 * 16 / 1000,
        startX := 0, startY := 0, velocityX := 49 / 10000, velocityY := 637 / 1250,
        rotation := 0, angularVelocity := 1 / 200, isDragging := false,
        hasDropped := true, lastTime := 16, pendingTick := true } := by
    simp only [specGravity, specFriction, specAdvance, gravity, friction]
    norm_num
  rw [hA]
  rw [checkBoundaries_floor 1000 1000 _ (by norm_num)
    (by norm_num [buttonWidth]) (by norm_num [buttonHeight])
    (by norm_num [buttonHeight])]
  simp only [specRotation, specSettle]
  norm_num [bounce, rotationFriction, rotationMultiplier, friction, buttonHeight]
  rw [if_neg]
  · exact ⟨by norm_num, rfl⟩
  · intro hcon
    have hv := hcon.2.1
    rw [abs_of_pos (by norm_num)] at hv
    norm_num at hv

/-- C4: `hasDropped` is a one-way latch: a scroll event past 50 while
`hasDropped` is false latches it and repositions the body to
`innerHeight - buttonHeight - 20`; once `hasDropped` is true every scroll
event leaves the whole state unchanged, and `hasDropped` never reverts
to false. -/
theorem handleScroll_latch (scrollY innerHeight : ℚ) (s : PhysState) :
    (s.hasDropped = false → scrollY > 50 →
      handleScroll scrollY innerHeight s =
        { s with hasDropped := true
                 posY := innerHeight - buttonHeight - 20 }) ∧
    (s.hasDropped = true → handleScroll scrollY innerHeight s = s) ∧
    (s.hasDropped = true →
      (handleScroll scrollY innerHeight s).hasDropped = true) := by
  refine ⟨fun h1 h2 => ?_, fun h1 => ?_, fun h1 => ?_⟩
  · simp [handleScroll, h1, h2]
  · simp [handleScroll, h1]
  · simp [handleScroll, h1]

/-- The initial, not-yet-dropped state of the component. -/
def scrollSample : PhysState :=
  { posX := 440, posY := 20, startX := 0, startY := 0, velocityX := 0,
    velocityY := 0, rotation := 0, angularVelocity := 0,
    isDragging := false, hasDropped := false, lastTime := 0,
    pendingTick := false }

/-- Witness for C4: a first qualifying scroll (`scrollY = 60`) latches the
flag and drops the body. -/
theorem handleScroll_latch_witness :
    scrollSample.hasDropped = false ∧ (60 : ℚ) > 50 ∧
    handleScroll 60 700 scrollSample =
      { scrollSample with hasDropped := true
                          posY := 700 - buttonHeight - 20 } ∧
    (handleScroll 60 700 scrollSample).hasDropped = true :=
  ⟨rfl, by norm_num,
    (handleScroll_latch 60 700 scrollSample).1 rfl (by norm_num),
    by rw [(handleScroll_latch 60 700 scrollSample).1 rfl (by norm_num)]⟩

/-- C5 (amended): for every state with `posX > W - buttonWidth`, a
nonnegative playfield width and a vertical position within bounds (so
that no Y-axis branch also fires), the boundary check clamps
`posX = W - buttonWidth`, reflects `vx` to `-vx * bounce`, assigns
`angularVelocity = vy * rotationMultiplier` and reports a hit.  At
simultaneous corner hits the Y-axis branch overwrites this angular
velocity, so the unrestricted claim fails. -/
theorem checkBoundaries_right_resolution (W H : ℚ) (s : PhysState)
    (hW : 0 ≤ W - buttonWidth) (hx : s.posX > W - buttonWidth)
    (hy0 : 0 ≤ s.posY) (hy1 : s.posY ≤ H - buttonHeight) :
    ((checkBoundaries W H s).1).posX = W - buttonWidth ∧
    ((checkBoundaries W H s).1).velocityX = -s.velocityX * bounce ∧
    ((checkBoundaries W H s).1).angularVelocity =
      s.velocityY * rotationMultiplier ∧
    (checkBoundaries W H s).2 = true := by
  rw [checkBoundaries_right_wall W H s hW hx hy0 hy1]
  exact ⟨rfl, rfl, rfl, rfl⟩

/-- A body moving right at `vx = 500` past the right wall, as in the
spec's Scenario B. -/
def rightWallSample : PhysState :=
  { posX := 900, posY := 100, startX := 0, startY := 0, velocityX := 500,
    velocityY := 50, rotation := 0, angularVelocity := 0,
    isDragging := false, hasDropped := true, lastTime := 0,
    pendingTick := true }

/-- Witness for C5 (amended): the Scenario B state with `vx = 500`
bounces off the right wall with `vx = -500 * bounce = -350`. -/
theorem checkBoundaries_right_resolution_witness :
    (0 : ℚ) ≤ 1000 - buttonWidth ∧
    rightWallSample.posX > 1000 - buttonWidth ∧
    (0 : ℚ) ≤ rightWallSample.posY ∧
    rightWallSample.posY ≤ 1000 - buttonHeight ∧
    (((checkBoundaries 1000 1000 rightWallSample).1).posX =
        1000 - buttonWidth ∧
      ((checkBoundaries 1000 1000 rightWallSample).1).velocityX =
        -rightWallSample.velocityX * bounce ∧
      ((checkBoundaries 1000 1000 rightWallSample).1).angularVelocity =
        rightWallSample.velocityY * rotationMultiplier ∧
      (checkBoundaries 1000 1000 rightWallSample).2 = true) :=
  ⟨by norm_num [buttonWidth], by norm_num [rightWallSample, buttonWidth],
    by norm_num [rightWallSample], by norm_num [rightWallSample, buttonHeight],
    checkBoundaries_right_resolution 1000 1000 rightWallSample
      (by norm_num [buttonWidth]) (by norm_num [rightWallSample, buttonWidth])
      (by norm_num [rightWallSample])
      (by norm_num [rightWallSample, buttonHeight])⟩

/-- A state past both the right wall and the floor at once. -/
def cornerRight : PhysState :=
  { posX := 900, posY := 950, startX := 0, startY := 0, velocityX := 100,
    velocityY := 50, rotation := 0, angularVelocity := 0,
    isDragging := false, hasDropped := true, lastTime := 0,
    pendingTick := true }

/-- C5 counterexample: a state with `posX > W - buttonWidth` whose final
angular velocity is not `vy * rotationMultiplier`, because the floor is
penetrated in the same call and its branch overwrites the assignment. -/
theorem corner_right_overwrites_spin :
    cornerRight.posX > 1000 - buttonWidth ∧
    ((checkBoundaries 1000 1000 cornerRight).1).angularVelocity ≠
      cornerRight.velocityY * rotationMultiplier := by
  norm_num [cornerRight, checkBoundaries, buttonWidth, buttonHeight, bounce,
    rotationMultiplier, friction]

/-- C6 (amended): for every state with `posY > H - buttonHeight`, a
viewport at least as tall as the button and a horizontal position within
bounds (so that no X-axis branch also fires), the boundary check clamps
`posY`, reflects `vy` to `-vy * bounce`, assigns
`angularVelocity = -vx * rotationMultiplier * 2`, damps
`vx` by `friction * 0.9`, and reports a hit; the exact single-branch
result also shows the ceiling response does not fire in the same call
(the per-axis branches are chained by `else`).  At corner hits the
X-axis reflection feeds into these formulas first, so the unrestricted
claim fails. -/
theorem checkBoundaries_floor_resolution (W H : ℚ) (s : PhysState)
    (hx0 : 0 ≤ s.posX) (hx1 : s.posX ≤ W - buttonWidth)
    (hH : buttonHeight ≤ H) (hy : s.posY > H - buttonHeight) :
    ((checkBoundaries W H s).1).posY = H - buttonHeight ∧
    ((checkBoundaries W H s).1).velocityY = -s.velocityY * bounce ∧
    ((checkBoundaries W H s).1).angularVelocity =
      -s.velocityX * rotationMultiplier * 2 ∧
    ((checkBoundaries W H s).1).velocityX =
      s.velocityX * (friction * (9 / 10)) ∧
    ((checkBoundaries W H s).1).posX = s.posX ∧
    (checkBoundaries W H s).2 = true := by
  rw [checkBoundaries_floor W H s hx0 hx1 hH hy]
  exact ⟨rfl, rfl, rfl, rfl, rfl, rfl⟩

/-- A body falling past the floor with the X position within bounds. -/
def floorSample : PhysState :=
  { posX := 400, posY := 970, startX := 0, startY := 0, velocityX := 80,
    velocityY := 60, rotation := 0, angularVelocity := 0,
    isDragging := false, hasDropped := true, lastTime := 0,
    pendingTick := true }

/-- Witness for C6 (amended) at a concrete floor hit. -/
theorem checkBoundaries_floor_resolution_witness :
    (0 : ℚ) ≤ floorSample.posX ∧
    floorSample.posX ≤ 1000 - buttonWidth ∧
    buttonHeight ≤ (1000 : ℚ) ∧
    floorSample.posY > 1000 - buttonHeight ∧
    (((checkBoundaries 1000 1000 floorSample).1).posY =
        1000 - buttonHeight ∧
      ((checkBoundaries 1000 1000 floorSample).1).velocityY =
        -floorSample.velocityY * bounce ∧
      ((checkBoundaries 1000 1000 floorSample).1).angularVelocity =
        -floorSample.velocityX * rotationMultiplier * 2 ∧
      ((checkBoundaries 1000 1000 floorSample).1).velocityX =
        floorSample.velocityX * (friction * (9 / 10)) ∧
      ((checkBoundaries 1000 1000 floorSample).1).posX = floorSample.posX ∧
      (checkBoundaries 1000 1000 floorSample).2 = true) :=
  ⟨by norm_num [floorSample], by norm_num [floorSample, buttonWidth],
    by norm_num [buttonHeight], by norm_num [floorSample, buttonHeight],
    checkBoundaries_floor_resolution 1000 1000 floorSample
      (by norm_num [floorSample]) (by norm_num [floorSample, buttonWidth])
      (by norm_num [buttonHeight]) (by norm_num [floorSample, buttonHeight])⟩

/-- A state past both the left wall and the floor at once. -/
def cornerLeftFloor : PhysState :=
  { posX := -10, posY := 950, startX := 0, startY := 0, velocityX := 100,
    velocityY := 50, rotation := 0, angularVelocity := 0,
    isDragging := false, hasDropped := true, lastTime := 0,
    pendingTick := true }

/-- C6 counterexample: a state with `posY > H - buttonHeight` whose final
angular velocity is not `-vx * rotationMultiplier * 2` and whose final
horizontal velocity is not `vx * friction * 0.9` in terms of the incoming
`vx`, because the left wall fires first in the same call and reflects
`vx` before the floor branch reads it. -/
theorem corner_left_floor_overwrites_spin :
    cornerLeftFloor.posY > 1000 - buttonHeight ∧
    ((checkBoundaries 1000 1000 cornerLeftFloor).1).angularVelocity ≠
      -cornerLeftFloor.velocityX * rotationMultiplier * 2 ∧
    ((checkBoundaries 1000 1000 cornerLeftFloor).1).velocityX ≠
      cornerLeftFloor.velocityX * (friction * (9 / 10)) := by
  norm_num [cornerLeftFloor, checkBoundaries, buttonWidth, buttonHeight,
    bounce, rotationMultiplier, friction]

/-- C8: velocity estimation during a drag: when the elapsed time
`now - lastTime` is nonpositive the velocities and the angular velocity
are left unchanged; when it is positive the new velocities are
`Δ position / Δt * 1000` and the angular velocity is
`(vx_new - vx_old) * rotationMultiplier`. -/
theorem onDrag_velocity_estimation (clientX clientY now : ℚ) (s : PhysState)
    (hd : s.isDragging = true) :
    (now - s.lastTime ≤ 0 →
      (onDrag clientX clientY now s).velocityX = s.velocityX ∧
      (onDrag clientX clientY now s).velocityY = s.velocityY ∧
      (onDrag clientX clientY now s).angularVelocity = s.angularVelocity) ∧
    (0 < now - s.lastTime →
      (onDrag clientX clientY now s).velocityX =
        (clientX - s.startX - s.posX) / (now - s.lastTime) * 1000 ∧
      (onDrag clientX clientY now s).velocityY =
        (clientY - s.startY - s.posY) / (now - s.lastTime) * 1000 ∧
      (onDrag clientX clientY now s).angularVelocity =
        ((clientX - s.startX - s.posX) / (now - s.lastTime) * 1000 -
          s.velocityX) * rotationMultiplier) := by
  constructor
  · intro h
    simp only [onDrag, hd, Bool.true_eq_false, if_false]
    rw [if_neg (not_lt.mpr h)]
    exact ⟨rfl, rfl, rfl⟩
  · intro h
    simp only [onDrag, hd, Bool.true_eq_false, if_false]
    rw [if_pos h]
    exact ⟨rfl, rfl, rfl⟩

/-- A mid-drag state used to instantiate the drag-handling theorems. -/
def dragSample : PhysState :=
  { posX := 50, posY := 60, startX := 5, startY := 6, velocityX := 7,
    velocityY := 8, rotation := 9, angularVelocity := 10,
    isDragging := true, hasDropped := true, lastTime := 100,
    pendingTick := false }

/-- Witness for C8 at a concrete drag sample 16 ms after the last one. -/
theorem onDrag_velocity_estimation_witness :
    dragSample.isDragging = true ∧ (0 : ℚ) < 116 - dragSample.lastTime ∧
    ((onDrag 72 90 116 dragSample).velocityX =
        (72 - dragSample.startX - dragSample.posX) /
          (116 - dragSample.lastTime) * 1000 ∧
      (onDrag 72 90 116 dragSample).velocityY =
        (90 - dragSample.startY - dragSample.posY) /
          (116 - dragSample.lastTime) * 1000 ∧
      (onDrag 72 90 116 dragSample).angularVelocity =
        ((72 - dragSample.startX - dragSample.posX) /
            (116 - dragSample.lastTime) * 1000 - dragSample.velocityX) *
          rotationMultiplier) :=
  ⟨rfl, by norm_num [dragSample],
    (onDrag_velocity_estimation 72 90 116 dragSample rfl).2
      (by norm_num [dragSample])⟩

/-- C9: the animation loop never runs while dragging: an `animate` call
on a dragging state returns the state unchanged and does not schedule a
tick; and `startDrag` always cancels any pending scheduled tick while
entering the dragging phase, so no prior simulation loop survives a new
grab. -/
theorem animate_drag_guard_and_startDrag_cancel :
    (∀ (W H now : ℚ) (s : PhysState), s.isDragging = true →
      animate W H now s = s) ∧
    ∀ (clientX clientY : ℚ) (s : PhysState),
      (startDrag clientX clientY s).pendingTick = false ∧
      (startDrag clientX clientY s).isDragging = true := by
  constructor
  · intro W H now s hd
    unfold animate
    rw [if_pos (by simp [hd])]
  · intro cX cY s
    exact ⟨rfl, rfl⟩

/-- Witness for C9 at a concrete dragging state with a pending tick. -/
theorem animate_drag_guard_and_startDrag_cancel_witness :
    dragSample.isDragging = true ∧
    animate 1000 1000 116 dragSample = dragSample ∧
    (startDrag 30 40 dragSample).pendingTick = false ∧
    (startDrag 30 40 dragSample).isDragging = true :=
  ⟨rfl, animate_drag_guard_and_startDrag_cancel.1 1000 1000 116 dragSample rfl,
    (animate_drag_guard_and_startDrag_cancel.2 30 40 dragSample).1,
    (animate_drag_guard_and_startDrag_cancel.2 30 40 dragSample).2⟩

/-- C10: at a corner hit (an X-edge branch and a Y-edge branch both fire
in the same `checkBoundaries` call) the final angular velocity is the
Y-branch's assignment — computed from the already-reflected horizontal
velocity `-vx * bounce` — regardless of the X-branch's assignment, while
the linear-velocity reflections of both axes are kept. -/
theorem corner_hit_spin_from_y_axis (W H : ℚ) (s : PhysState)
    (hx : s.posX < 0 ∨ s.posX > W - buttonWidth)
    (hy : s.posY < 0 ∨ s.posY > H - buttonHeight) :
    ((checkBoundaries W H s).1).angularVelocity =
      (if s.posY < 0 then (-s.velocityX * bounce) * rotationMultiplier
       else -(-s.velocityX * bounce) * rotationMultiplier * 2) ∧
    ((checkBoundaries W H s).1).velocityY = -s.velocityY * bounce ∧
    ((checkBoundaries W H s).1).velocityX =
      (if s.posY < 0 then -s.velocityX * bounce
       else (-s.velocityX * bounce) * (friction * (9 / 10))) ∧
    (checkBoundaries W H s).2 = true := by
  by_cases hx0 : s.posX < 0
  · by_cases hy0 : s.posY < 0
    · simp only [checkBoundaries, if_pos hx0]
      simp [hy0]
    · have hy1 : s.posY > H - buttonHeight := hy.resolve_left hy0
      simp only [checkBoundaries, if_pos hx0]
      simp [hy0, hy1]
  · have hx1 : s.posX > W - buttonWidth := hx.resolve_left hx0
    by_cases hy0 : s.posY < 0
    · simp only [checkBoundaries, if_neg hx0, if_pos hx1]
      simp [hy0]
    · have hy1 : s.posY > H - buttonHeight := hy.resolve_left hy0
      simp only [checkBoundaries, if_neg hx0, if_pos hx1]
      simp [hy0, hy1]

/-- A state past both the left wall and the ceiling at once. -/
def cornerTopLeft : PhysState :=
  { posX := -5, posY := -7, startX := 0, startY := 0, velocityX := 60,
    velocityY := 40, rotation := 0, angularVelocity := 3,
    isDragging := false, hasDropped := true, lastTime := 0,
    pendingTick := true }

/-- Witness for C10 at a concrete top-left corner hit. -/
theorem corner_hit_spin_from_y_axis_witness :
    (cornerTopLeft.posX < 0 ∨ cornerTopLeft.posX > 1000 - buttonWidth) ∧
    (cornerTopLeft.posY < 0 ∨ cornerTopLeft.posY > 1000 - buttonHeight) ∧
    (((checkBoundaries 1000 1000 cornerTopLeft).1).angularVelocity =
        (if cornerTopLeft.posY < 0 then
          (-cornerTopLeft.velocityX * bounce) * rotationMultiplier
         else -(-cornerTopLeft.velocityX * bounce) * rotationMultiplier * 2) ∧
      ((checkBoundaries 1000 1000 cornerTopLeft).1).velocityY =
        -cornerTopLeft.velocityY * bounce ∧
      ((checkBoundaries 1000 1000 cornerTopLeft).1).velocityX =
        (if cornerTopLeft.posY < 0 then -cornerTopLeft.velocityX * bounce
         else (-cornerTopLeft.velocityX * bounce) * (friction * (9 / 10))) ∧
      (checkBoundaries 1000 1000 cornerTopLeft).2 = true) :=
  ⟨Or.inl (by norm_num [cornerTopLeft]),
    Or.inl (by norm_num [cornerTopLeft]),
    corner_hit_spin_from_y_axis 1000 1000 cornerTopLeft
      (Or.inl (by norm_num [cornerTopLeft]))
      (Or.inl (by norm_num [cornerTopLeft]))⟩

end ButtonDrop
